import Mathlib

/-!
Verification of the descheduler trigger/queue engine
(pkg/descheduler/descheduler.go) against its specification.

The development shallowly embeds the Go source: the `Event` record, the
producer callbacks registered in `CreateDescheduler` (timer, node informer,
replica-set informer) acting on the single shared mutable `newEvent`
variable of line 56, the worker loop (`processNextItem`, `processNodeItem`)
and the startup sequencing of `Run`.  External collaborators (the client-go
work queue, `cache.MetaNamespaceKeyFunc`, node readiness, the trigger
predicate, the ready-node provider) are modelled from the contracts the
specification gives for them.
-/

/-- The `Event` record flowing through the queue
(descheduler.go lines 28-33).  Field order follows the source; the Go
field `namespace` is rendered `namespace_` because `namespace` is a Lean
keyword. -/
structure Event where
  key          : String
  eventType    : String
  namespace_   : String
  resourceType : String
deriving DecidableEq, Repr

/-- The Go zero value of `Event` (`var newEvent Event`, line 56): every
string field is empty. -/
def Event.zero : Event := ⟨"", "", "", ""⟩

/-- Modelled from the spec: the object metadata consumed by key
derivation — a validity flag (whether a metadata accessor exists), a
namespace (empty for cluster-scoped objects such as nodes) and a name. -/
structure ObjectMeta where
  valid  : Bool
  nspace : String
  name   : String
deriving DecidableEq, Repr

/-- The `namespace/name` key of an object, `name` alone when the object is
cluster-scoped (empty namespace). -/
def objectKey (m : ObjectMeta) : String :=
  if m.nspace = "" then m.name else m.nspace ++ "/" ++ m.name

/-- Modelled from the spec: `cache.MetaNamespaceKeyFunc` — derives the
`namespace/name` key of an object, failing (with an empty key, as the Go
function returns `"" , err`) when the object carries no usable metadata. -/
def metaNamespaceKeyFunc (m : ObjectMeta) : Option String :=
  if m.valid then some (objectKey m) else none

/-- Modelled from the spec: a cached node object.  Readiness is "a boolean
derived from the cached node object's condition list" (`node.IsReady`, an
external collaborator), kept here as the field `ready`. -/
structure Node where
  meta  : ObjectMeta
  ready : Bool
deriving DecidableEq, Repr

/-- Modelled from the spec: a cached replica-set object; the replica-set
callback only consumes its metadata (for key derivation). -/
structure ReplicaSet where
  meta : ObjectMeta
deriving DecidableEq, Repr

/-- The producer-side state of `CreateDescheduler`: the single `Event`
variable shared by every registered callback (line 56), and the trace of
`queue.Add` calls the callbacks have issued. -/
structure ProducerState where
  newEvent : Event
  adds     : List Event
deriving DecidableEq, Repr

/-- Producer state at the end of `CreateDescheduler`, before any callback
has fired: zero-valued shared event, no `Add` issued. -/
def initProducerState : ProducerState := ⟨Event.zero, []⟩

/-- The timer callback (lines 110-114): sets `eventType` and
`resourceType` on the shared record — leaving `key` and `namespace` as the
previous callback left them — and unconditionally enqueues it. -/
def timerCallback (s : ProducerState) : ProducerState :=
  let e := { s.newEvent with eventType := "onTime", resourceType := "timer" }
  ⟨e, s.adds ++ [e]⟩

/-- The node informer `UpdateFunc` (lines 119-133): only on a
not-ready → ready transition it derives the key of the old object, sets
the shared record's fields, and enqueues only when key derivation
succeeded. -/
def nodeUpdateFunc (old new : Node) (s : ProducerState) : ProducerState :=
  if !old.ready && new.ready then
    match metaNamespaceKeyFunc old.meta with
    | some k =>
        let e := { s.newEvent with
                     key := k, eventType := "getReady", resourceType := "node" }
        ⟨e, s.adds ++ [e]⟩
    | none =>
        let e := { s.newEvent with
                     key := "", eventType := "getReady", resourceType := "node" }
        ⟨e, s.adds⟩
  else s

/-- The replica-set informer `UpdateFunc` (lines 135-147): on every update
it derives the key of the old object, sets the shared record's fields, and
enqueues only when key derivation succeeded. -/
def rsUpdateFunc (old new : ReplicaSet) (s : ProducerState) : ProducerState :=
  match metaNamespaceKeyFunc old.meta with
  | some k =>
      let e := { s.newEvent with
                   key := k, eventType := "rsUpdate", resourceType := "replicaSet" }
      ⟨e, s.adds ++ [e]⟩
  | none =>
      let e := { s.newEvent with
                   key := "", eventType := "rsUpdate", resourceType := "replicaSet" }
      ⟨e, s.adds⟩

/-- A notification delivered to one of the three registered producer
callbacks.  The pod informer registers no handler in the source, so there
is no pod case. -/
inductive Ntf where
  | timerFire : Ntf
  | nodeUpdate (old new : Node) : Ntf
  | rsUpdate (old new : ReplicaSet) : Ntf
deriving DecidableEq, Repr

/-- Dispatch one notification to its callback. -/
def applyNtf (s : ProducerState) : Ntf → ProducerState
  | Ntf.timerFire => timerCallback s
  | Ntf.nodeUpdate old new => nodeUpdateFunc old new s
  | Ntf.rsUpdate old new => rsUpdateFunc old new s

/-- Run a sequence of notifications through the producer callbacks. -/
def runNtfs (s : ProducerState) : List Ntf → ProducerState
  | [] => s
  | n :: rest => runNtfs (applyNtf s n) rest

/-- Modelled from the spec: the state of the rate-limited work queue the
worker consumes — the pending items, its shutdown flag, and the
per-identity retry counters maintained by the rate-limited path. -/
structure QueueState where
  items    : List Event
  shutDown : Bool
  retries  : List (Event × Nat)
deriving DecidableEq, Repr

/-- Modelled from the spec: `Get` — returns the front pending item, or,
once the queue is shut down and drained, no item and `shutdown = true`.
An empty, not-shut-down queue blocks the caller in the source; that case
is rendered as `(none, false)` with the state unchanged. -/
def QueueState.get (q : QueueState) : (Option Event × Bool) × QueueState :=
  match q.items with
  | e :: rest => ((some e, false), { q with items := rest })
  | [] => ((none, q.shutDown), q)

/-- Modelled from the spec: `AddRateLimited` — re-queues the item after a
backoff and increments its identity's retry counter.  The worker source
never invokes it; it is defined here so that the retry claims can be
stated against it. -/
def QueueState.addRateLimited (q : QueueState) (e : Event) : QueueState :=
  { q with
      items := q.items ++ [e],
      retries :=
        if (q.retries.lookup e).isSome then
          q.retries.map (fun p => if p.1 = e then (p.1, p.2 + 1) else p)
        else q.retries ++ [(e, 1)] }

/-- Outcomes of the two external collaborators consulted while processing
one dequeued item: the trigger predicate `trigger.IsTriggered` and the
ready-node provider `node.GetReadyNodes` (which may fail). -/
structure Collaborators where
  isTriggered : Bool
  readyNodes  : Except String (List Node)
deriving Repr

/-- `processNodeItem` (lines 220-228): fetches the ready nodes; on
provider failure it prints and returns the error, otherwise it prints the
nodes and returns no error.  The event parameter is unused by the body,
as in the source. -/
def processNodeItem (ev : Event) (c : Collaborators) : Option String :=
  match c.readyNodes with
  | Except.error msg => some msg
  | Except.ok _ => none

/-- Observable record of one `processNextItem` iteration: the returned
boolean, how many times `Done` ran on the dequeued item, whether the
trigger predicate was consulted, whether the ready-node fetch ran and
what error it produced. -/
structure StepTrace where
  loopContinues      : Bool
  doneCalls          : Nat
  triggerInvoked     : Bool
  nodeFetchAttempted : Bool
  nodeFetchError     : Option String
deriving DecidableEq, Repr

/-- `processNextItem` (lines 200-218): `Get`; on shutdown return `false`;
otherwise `Done` is deferred, the event is classified by `resourceType`
(`node` or `timer` consult the trigger predicate, a positive trigger runs
`processNodeItem` whose error is discarded), and `true` is returned.  No
branch touches the rate-limited path or the retry counters. -/
def processNextItem (q : QueueState) (c : Collaborators) : StepTrace × QueueState :=
  match q.get with
  | ((some e, _), q1) =>
      let consult := e.resourceType == "node" || e.resourceType == "timer"
      let fetched := consult && c.isTriggered
      (⟨true, 1, consult, fetched,
        if fetched then processNodeItem e c else none⟩, q1)
  | ((none, true), q1) => (⟨false, 0, false, false, none⟩, q1)
  | ((none, false), q1) => (⟨true, 0, false, false, none⟩, q1)

/-- Whether each of the three informer caches reported synced before its
`WaitForCacheSync` timeout in `Run`. -/
structure SyncOutcomes where
  nodeSynced : Bool
  rsSynced   : Bool
  podSynced  : Bool
deriving DecidableEq, Repr

/-- Observable record of one execution of `Run`: whether `timer.RunTimer`
ran, whether the worker loop was entered (the `Running` state), and the
errors handed to `runtime.HandleError`. -/
structure RunTrace where
  timerStarted      : Bool
  workerLoopEntered : Bool
  syncErrors        : List String
deriving DecidableEq, Repr

/-- `Run` (lines 152-192): `ShutDown` is deferred on entry, then the three
informers are started and waited on in order (node, replica set, pod); a
sync timeout on any of them logs an error and returns early.  Only when
all three synced does the timer start and the worker loop run.  The
returned queue state is the queue as `Run` leaves it: shut down on every
path.  (The pod timeout message repeats the replica-set wording, as in the
source.) -/
def deschedulerRun (q : QueueState) (s : SyncOutcomes) : RunTrace × QueueState :=
  let qf : QueueState := { q with shutDown := true }
  if !s.nodeSynced then
    (⟨false, false, ["Timed out waiting for nodes caches to sync"]⟩, qf)
  else if !s.rsSynced then
    (⟨false, false, ["Timed out waiting for raplica sets caches to sync"]⟩, qf)
  else if !s.podSynced then
    (⟨false, false, ["Timed out waiting for raplica sets caches to sync"]⟩, qf)
  else
    (⟨true, true, []⟩, qf)

/-- An event whose `resourceType` is one of the three values the
registered producer callbacks write. -/
def knownResourceType (e : Event) : Bool :=
  e.resourceType == "timer" || e.resourceType == "node" ||
    e.resourceType == "replicaSet"

/-- The event the node callback enqueues for an update pair: key of the
old object, `getReady`, empty namespace, `node`. -/
def getReadyEventOf (p : Node × Node) : Event :=
  ⟨objectKey p.1.meta, "getReady", "", "node"⟩

/-- Claim C5: for every dequeued event the worker consults the trigger
predicate if and only if the event's `resourceType` is `node` or `timer`;
the ready-node fetch runs only on a positive trigger; in every case the
item is acknowledged (`Done` exactly once), the loop continues, and the
queue is left with only the item removed — retry counters untouched. -/
theorem classification_trigger_iff_node_or_timer
    (e : Event) (rest : List Event) (sd : Bool) (rs : List (Event × Nat))
    (c : Collaborators) :
    (processNextItem ⟨e :: rest, sd, rs⟩ c).1.triggerInvoked
        = (e.resourceType == "node" || e.resourceType == "timer")
      ∧ (processNextItem ⟨e :: rest, sd, rs⟩ c).1.nodeFetchAttempted
        = ((e.resourceType == "node" || e.resourceType == "timer")
            && c.isTriggered)
      ∧ (processNextItem ⟨e :: rest, sd, rs⟩ c).1.doneCalls = 1
      ∧ (processNextItem ⟨e :: rest, sd, rs⟩ c).2 = ⟨rest, sd, rs⟩ := by
  refine ⟨?_, ?_, ?_, ?_⟩ <;> simp [processNextItem, QueueState.get]

/-- Claim C7: every dequeued event is acknowledged exactly once and
`processNextItem` returns `true` whatever the trigger predicate and the
ready-node provider do — per-item failures never stop the loop; the loop
stops (returns `false`, nothing to acknowledge) only when `Get` reports
shutdown on a drained queue. -/
theorem done_once_and_loop_continues
    (e : Event) (rest : List Event) (sd : Bool) (rs : List (Event × Nat))
    (c c2 : Collaborators) :
    (processNextItem ⟨e :: rest, sd, rs⟩ c).1.doneCalls = 1
      ∧ (processNextItem ⟨e :: rest, sd, rs⟩ c).1.loopContinues = true
      ∧ (processNextItem ⟨[], true, rs⟩ c2).1.loopContinues = false
      ∧ (processNextItem ⟨[], true, rs⟩ c2).1.doneCalls = 0 := by
  refine ⟨?_, ?_, ?_, ?_⟩ <;> simp [processNextItem, QueueState.get]

/-- Claim C2 (code defect): with a pending `node` event, a positive
trigger and a failing ready-node provider, `processNextItem` attempts the
fetch, sees the error, yet acknowledges and drops the item: the resulting
queue is empty with no retry counter — it is not the state
`AddRateLimited` would have produced, so no rate-limited re-enqueue and no
retry accounting ever happen (the source ignores `processNodeItem`'s error
and its `maxRetries = 5` constant is unused). -/
theorem noRetry_on_readyNodes_failure :
    processNextItem ⟨[⟨"n1", "getReady", "", "node"⟩], false, []⟩
        ⟨true, Except.error "connection refused"⟩
      = (⟨true, 1, true, true, some "connection refused"⟩, ⟨[], false, []⟩)
    ∧ (processNextItem ⟨[⟨"n1", "getReady", "", "node"⟩], false, []⟩
        ⟨true, Except.error "connection refused"⟩).2
      ≠ QueueState.addRateLimited ⟨[], false, []⟩ ⟨"n1", "getReady", "", "node"⟩ := by
  refine ⟨by decide, by decide⟩

/-- Claim C3 (code defect): the callbacks share the single mutable
`newEvent` record, so they do not build fresh independent events: after a
replica-set update for `ns1/rs1`, a timer fire enqueues an event that
still carries the key `ns1/rs1` written by the earlier callback. -/
theorem sharedEventBuffer_contaminates_timerEvent :
    (runNtfs initProducerState
        [Ntf.rsUpdate ⟨⟨true, "ns1", "rs1"⟩⟩ ⟨⟨true, "ns1", "rs1"⟩⟩,
         Ntf.timerFire]).adds
      = [⟨"ns1/rs1", "rsUpdate", "", "replicaSet"⟩,
         ⟨"ns1/rs1", "onTime", "", "timer"⟩]
    ∧ ((runNtfs initProducerState
        [Ntf.rsUpdate ⟨⟨true, "ns1", "rs1"⟩⟩ ⟨⟨true, "ns1", "rs1"⟩⟩,
         Ntf.timerFire]).adds.getD 1 Event.zero).key ≠ "" := by
  refine ⟨by decide, by decide⟩

/-- Claim C4 (code defect): a timer-originated event does not always have
an empty key: after a node not-ready → ready update for `n1`, the timer
callback (which never writes `key`) enqueues an `onTime`/`timer` event
whose key is still `n1`. -/
theorem timerEvent_key_not_empty_after_node_update :
    (runNtfs initProducerState
        [Ntf.nodeUpdate ⟨⟨true, "", "n1"⟩, false⟩ ⟨⟨true, "", "n1"⟩, true⟩,
         Ntf.timerFire]).adds
      = [⟨"n1", "getReady", "", "node"⟩, ⟨"n1", "onTime", "", "timer"⟩]
    ∧ ((runNtfs initProducerState
        [Ntf.nodeUpdate ⟨⟨true, "", "n1"⟩, false⟩ ⟨⟨true, "", "n1"⟩, true⟩,
         Ntf.timerFire]).adds.getD 1 Event.zero).key ≠ "" := by
  refine ⟨by decide, by decide⟩

/-- Claim C6: the worker loop is entered (`Running`) and the timer started
exactly when all three informer caches synced; any single sync timeout
makes `Run` return without reaching `Running`. -/
theorem running_iff_all_synced (q : QueueState) (s : SyncOutcomes) :
    (deschedulerRun q s).1.workerLoopEntered
        = (s.nodeSynced && s.rsSynced && s.podSynced)
      ∧ (deschedulerRun q s).1.timerStarted
        = (s.nodeSynced && s.rsSynced && s.podSynced) := by
  rcases s with ⟨n, r, p⟩
  cases n <;> cases r <;> cases p <;> simp [deschedulerRun]

/-- Claim C8: when key derivation fails (old object without usable
metadata), the node callback — even on a genuine not-ready → ready
transition — and the replica-set callback both return without enqueuing
anything; the model has no error channel, matching the silent drop. -/
theorem keyDerivationFailure_drops_event
    (ns name : String) (m2 : ObjectMeta) (ns2 name2 : String)
    (newR : ReplicaSet) (s t : ProducerState) :
    (nodeUpdateFunc ⟨⟨false, ns, name⟩, false⟩ ⟨m2, true⟩ s).adds = s.adds
      ∧ (rsUpdateFunc ⟨⟨false, ns2, name2⟩⟩ newR t).adds = t.adds := by
  refine ⟨?_, ?_⟩ <;> simp [nodeUpdateFunc, rsUpdateFunc, metaNamespaceKeyFunc]

/-- Claim C10: `Run` shuts the queue down on every return path — including
every startup abort on a sync timeout — and a `Get` on the shut-down,
drained queue returns no item with `shutdown = true`. -/
theorem run_always_shuts_down_queue
    (q : QueueState) (s : SyncOutcomes) (rs : List (Event × Nat)) :
    (deschedulerRun q s).2.shutDown = true
      ∧ (QueueState.get ⟨[], true, rs⟩).1 = (none, true) := by
  constructor
  · rcases s with ⟨n, r, p⟩
    cases n <;> cases r <;> cases p <;> simp [deschedulerRun]
  · rfl

/-- Each producer callback writes `resourceType` afresh before any `Add`,
so one notification preserves the invariant that every added event has a
known resource type. -/
lemma applyNtf_adds_known (s : ProducerState) (n : Ntf)
    (h : s.adds.all knownResourceType = true) :
    (applyNtf s n).adds.all knownResourceType = true := by
  cases n with
  | timerFire => simp [applyNtf, timerCallback, List.all_append, knownResourceType, h]
  | nodeUpdate old new =>
      simp only [applyNtf, nodeUpdateFunc]
      split
      · cases hk : metaNamespaceKeyFunc old.meta <;>
          simp [hk, List.all_append, knownResourceType, h]
      · exact h
  | rsUpdate old new =>
      simp only [applyNtf, rsUpdateFunc]
      cases hk : metaNamespaceKeyFunc old.meta <;>
        simp [hk, List.all_append, knownResourceType, h]

/-- Extending `applyNtf_adds_known` over a whole notification sequence. -/
lemma runNtfs_adds_known (ntfs : List Ntf) :
    ∀ s : ProducerState, s.adds.all knownResourceType = true →
    (runNtfs s ntfs).adds.all knownResourceType = true := by
  induction ntfs with
  | nil => intro s h; simpa [runNtfs] using h
  | cons n rest ih =>
      intro s h
      simpa [runNtfs] using ih (applyNtf s n) (applyNtf_adds_known s n h)

/-- Claim C9: a pod-cache sync failure is as fatal as the others — the
worker loop is never entered when the pod informer fails to sync — and,
since the pod informer has no registered handler (no pod notification
exists), every event the producers ever enqueue carries `resourceType`
`timer`, `node` or `replicaSet`. -/
theorem podInformer_no_events_and_podSync_fatal
    (q : QueueState) (nodeS rsS : Bool) (ntfs : List Ntf) :
    (deschedulerRun q ⟨nodeS, rsS, false⟩).1.workerLoopEntered = false
      ∧ (runNtfs initProducerState ntfs).adds.all knownResourceType = true := by
  constructor
  · cases nodeS <;> cases rsS <;> simp [deschedulerRun]
  · exact runNtfs_adds_known ntfs initProducerState (by rfl)

/-- A node-update-only notification sequence appends to the `Add` trace
exactly one `getReady`/`node` event per not-ready → ready transition,
keyed by the old object, provided every old object has usable metadata and
the shared record's namespace field is (and then stays) empty. -/
lemma runNtfs_nodeSeq (updates : List (Node × Node)) :
    ∀ s : ProducerState, s.newEvent.namespace_ = "" →
    (∀ p ∈ updates, p.1.meta.valid = true) →
    (runNtfs s (updates.map (fun p => Ntf.nodeUpdate p.1 p.2))).adds
      = s.adds ++ (updates.filter (fun p => !p.1.ready && p.2.ready)).map
          getReadyEventOf := by
  induction updates with
  | nil => intro s _ _; simp [runNtfs]
  | cons p rest ih =>
      intro s hns h
      have hrest : ∀ q ∈ rest, q.1.meta.valid = true :=
        fun q hq => h q (List.mem_cons_of_mem _ hq)
      simp only [List.map_cons, runNtfs, applyNtf]
      by_cases htr : (!p.1.ready && p.2.ready) = true
      · have hv := h p (List.mem_cons_self _ _)
        have hkey : metaNamespaceKeyFunc p.1.meta = some (objectKey p.1.meta) := by
          simp [metaNamespaceKeyFunc, hv]
        have hstep : nodeUpdateFunc p.1 p.2 s
            = ⟨⟨objectKey p.1.meta, "getReady", s.newEvent.namespace_, "node"⟩,
               s.adds
                 ++ [⟨objectKey p.1.meta, "getReady", s.newEvent.namespace_,
                      "node"⟩]⟩ := by
          rcases s with ⟨⟨k0, t0, n0, r0⟩, adds0⟩
          simp [nodeUpdateFunc, htr, hkey]
        rw [hstep, ih _ (by simp [hns]) hrest]
        simp [List.filter_cons, htr, getReadyEventOf, hns, List.append_assoc]
      · have hstep : nodeUpdateFunc p.1 p.2 s = s := by
          simp [nodeUpdateFunc, htr]
        rw [hstep, ih s hns hrest]
        simp [List.filter_cons, htr]

/-- Claim C1: over any sequence of node update notifications (with usable
metadata on the old objects), the events enqueued by the node callback are
exactly one `getReady`/`node` event per not-ready → ready transition —
so true → true repeats and true → false transitions enqueue nothing. -/
theorem nodeUpdate_emits_iff_transition (updates : List (Node × Node))
    (h : ∀ p ∈ updates, p.1.meta.valid = true) :
    (runNtfs initProducerState
        (updates.map (fun p => Ntf.nodeUpdate p.1 p.2))).adds
      = (updates.filter (fun p => !p.1.ready && p.2.ready)).map
          getReadyEventOf := by
  simpa [initProducerState, Event.zero]
    using runNtfs_nodeSeq updates initProducerState (by rfl) h

/-- Concrete node-update sequence for the witness: one false → true
transition, one true → true repeat, one true → false transition. -/
def c1ups : List (Node × Node) :=
  [(⟨⟨true, "", "n1"⟩, false⟩, ⟨⟨true, "", "n1"⟩, true⟩),
   (⟨⟨true, "", "n1"⟩, true⟩, ⟨⟨true, "", "n1"⟩, true⟩),
   (⟨⟨true, "", "n2"⟩, true⟩, ⟨⟨true, "", "n2"⟩, false⟩)]

/-- Witness for claim C1 at the concrete sequence `c1ups`. -/
theorem nodeUpdate_emits_iff_transition_witness :
    (∀ p ∈ c1ups, p.1.meta.valid = true)
      ∧ (runNtfs initProducerState
            (c1ups.map (fun p => Ntf.nodeUpdate p.1 p.2))).adds
        = (c1ups.filter (fun p => !p.1.ready && p.2.ready)).map
            getReadyEventOf :=
  ⟨by decide, nodeUpdate_emits_iff_transition c1ups (by decide)⟩
